import Mathlib

/-!
# Verification of the `create-lavalink` streaming downloader

A shallow embedding of `downloadFile` from `src/bin/cli.js` (and the one
call site in `createLavalink` that consumes its errors), together with
proofs of the spec's claims about it.

The JavaScript function is single-threaded and cooperatively scheduled:
the only suspension points are the `await reader.read()` calls, so the
body of each loop iteration (`downloadedSize += value.length;
fileStream.write(value)`) runs atomically with respect to the 100 ms
interval callback.  We therefore model one run of `downloadFile` as a
deterministic value: the ordered trace of its observable actions, the
bytes it hands to the destination write stream, and its settled result.
The interval callback's view of the world is modelled separately, as a
function of the suspension point (number of chunks processed so far) at
which a tick fires.
-/

/-- A byte of the response body (the JS code never inspects byte values,
so plain `Nat` suffices). -/
abbrev Byte := Nat

/-- One chunk delivered by `reader.read()` (`value` in the source). -/
abbrev Chunk := List Byte

/-- The portion of a `fetch` response observed by `downloadFile`:
`ok`, `statusText`, the optional `content-length` header, and the body
as the sequence of chunks the reader delivers.  If `bodyError` is
`some e`, the reader rejects with `e` after delivering all of `body`
(a mid-stream read failure); if it is `none`, the reader reports
`done` after `body`. -/
structure Response where
  ok : Bool
  statusText : String
  contentLength : Option Nat
  body : List Chunk
  bodyError : Option String := none
deriving Repr

/-- Spinner frames, from `loadingFrames` in the source. -/
def loadingFrames : List String :=
  ["⠋", "⠙", "⠹", "⠸", "⠼", "⠴", "⠦", "⠧", "⠇", "⠏"]

/-- The interval period of the progress timer, in milliseconds
(`setInterval(..., 100)`). -/
def intervalMs : Nat := 100

/-- Models JavaScript `(bytes / 1024 / 1024).toFixed(2)`: the byte count
as megabytes with two decimal places.  Computed on the exact rational
`bytes / 1048576` with round-half-up; the double-precision evaluation in
JS agrees on all inputs the claims touch and no claim depends on the
final ulp of rounding. -/
def mbFixed2 (bytes : Nat) : String :=
  let scaled := bytes * 100
  let q := scaled / 1048576
  let r := scaled % 1048576
  let rounded := if 1048576 ≤ 2 * r then q + 1 else q
  toString (rounded / 100) ++ "." ++
    (if rounded % 100 < 10 then "0" ++ toString (rounded % 100)
     else toString (rounded % 100))

/-- Models `const totaledSizeMB = totalSize ? (totalSize / 1024 /
1024).toFixed(2) : 'unknown'`.  `response.headers.get` yields `null`
when the header is absent (falsy, hence `'unknown'`) and a numeric
string otherwise (truthy, coerced by the division). -/
def totaledSizeMB (contentLength : Option Nat) : String :=
  match contentLength with
  | some n => mbFixed2 n
  | none => "unknown"

/-- The line written by the interval callback:
``logUpdate(`${frame} ${text} (${downloadedMB} MB / ${totaledSizeMB} MB)`)``. -/
def spinnerLine (frame : String) (text : String) (downloaded : Nat)
    (contentLength : Option Nat) : String :=
  frame ++ " " ++ text ++ " (" ++ mbFixed2 downloaded ++ " MB / " ++
    totaledSizeMB contentLength ++ " MB)"

/-- The green check marker `\x1b[32m✔\x1b[0m` of the final line. -/
def successMarker : String := "\x1b[32m✔\x1b[0m"

/-- The final line written after the loop:
``logUpdate(`\x1b[32m✔\x1b[0m ${text} (${...toFixed(2)} MB / ${totaledSizeMB} MB)`)``. -/
def finalLine (text : String) (downloaded : Nat)
    (contentLength : Option Nat) : String :=
  successMarker ++ " " ++ text ++ " (" ++ mbFixed2 downloaded ++ " MB / " ++
    totaledSizeMB contentLength ++ " MB)"

/-- Observable actions of one `downloadFile` call, in program order.
`awaitFlushCompleted` stands for waiting on the destination write
stream's `finish`/`close` event (i.e. for all buffered bytes to reach
storage); the source contains no such wait, so the event can only be
absent from its traces. -/
inductive Event where
  | fetched
  | threw (msg : String)
  | startInterval
  | openWriteStream
  | readChunk (c : Chunk)
  | addCount (n : Nat)
  | writeChunk (c : Chunk)
  | readError (msg : String)
  | endStream
  | awaitFlushCompleted
  | clearTimer
  | renderFinal (line : String)
  | resolved
deriving DecidableEq, Repr

/-- Mutable state of one transfer: `downloadedSize` and the bytes handed
to `fileStream.write` so far, in order. -/
structure DownloadState where
  downloadedSize : Nat
  fileContents : List Byte
deriving DecidableEq, Repr

/-- The `while (true)` loop of `writeToFile`, acting on the transfer
state: for each chunk, `downloadedSize += value.length` then
`fileStream.write(value)`. -/
def writeLoop : List Chunk → DownloadState → DownloadState
  | [], st => st
  | c :: rest, st =>
      writeLoop rest
        { downloadedSize := st.downloadedSize + c.length,
          fileContents := st.fileContents ++ c }

/-- The events emitted by the `writeToFile` loop for a chunk sequence. -/
def writeLoopEvents : List Chunk → List Event
  | [] => []
  | c :: rest =>
      .readChunk c :: .addCount c.length :: .writeChunk c ::
        writeLoopEvents rest

/-- The fresh transfer state (`let downloadedSize = 0`, empty file). -/
def initState : DownloadState := { downloadedSize := 0, fileContents := [] }

/-- `downloadedSize` as the interval callback sees it at the suspension
point reached after `k` chunks have been processed (the only points at
which the single-threaded event loop can run the callback). -/
def downloadedAfter (chunks : List Chunk) (k : Nat) : Nat :=
  (writeLoop (chunks.take k) initState).downloadedSize

/-- The bytes handed to the destination write stream by the time the
suspension point after `k` chunks is reached. -/
def writtenAfter (chunks : List Chunk) (k : Nat) : List Byte :=
  (writeLoop (chunks.take k) initState).fileContents

/-- The spinner line rendered if the `i`-th interval tick fires at the
suspension point after `k` chunks (`loadingFrames[i % loadingFrames.length]`). -/
def tickLine (i : Nat) (text : String) (resp : Response) (k : Nat) : String :=
  spinnerLine (loadingFrames.getD (i % loadingFrames.length) "")
    text (downloadedAfter resp.body k) resp.contentLength

/-- Result of one `downloadFile` call: the settled promise, the
destination file, and the trace.  `file = none` means no write target
was ever created at the destination; `destPrev` is the pre-existing
file, if any (`fs.createWriteStream` with default flags truncates it). -/
structure DownloadRun where
  result : Except String Nat
  file : Option (List Byte)
  trace : List Event
deriving Repr

/-- Shallow embedding of `downloadFile(url, destination, text)`, applied
to the response `fetch` produced and to the pre-existing contents of the
destination.  Mirrors the source line by line:

* `if (!response.ok) throw new Error(...)` — before any stream exists;
* `setInterval(..., 100)` then `fs.createWriteStream(destination)`
  (default flag `w`: truncate);
* the `writeToFile` loop; on a reader rejection the exception
  propagates, skipping `fileStream.end()`, `clearInterval` and the
  final `logUpdate`;
* on `done`: `fileStream.end()` (no wait for the flush), then
  `clearInterval(interval)`, the final `logUpdate`, and resolution. -/
def downloadFile (resp : Response) (destPrev : Option (List Byte))
    (text : String) : DownloadRun :=
  if resp.ok = false then
    { result := .error ("Failed to download file: " ++ resp.statusText)
      file := destPrev
      trace := [.fetched, .threw ("Failed to download file: " ++ resp.statusText)] }
  else
    let st := writeLoop resp.body initState
    match resp.bodyError with
    | some e =>
        { result := .error e
          file := some st.fileContents
          trace := [.fetched, .startInterval, .openWriteStream] ++
            writeLoopEvents resp.body ++ [.readError e] }
    | none =>
        { result := .ok st.downloadedSize
          file := some st.fileContents
          trace := [.fetched, .startInterval, .openWriteStream] ++
            writeLoopEvents resp.body ++
            [.endStream, .clearTimer,
             .renderFinal (finalLine text st.downloadedSize resp.contentLength),
             .resolved] }

/-- Whether the spinner timer is still armed once the call has settled:
more `setInterval`s than `clearInterval`s in the trace. -/
def timerStillActive (run : DownloadRun) : Bool :=
  run.trace.count Event.clearTimer < run.trace.count Event.startInterval

/-- Recognizes the final-render action in a trace. -/
def isRenderFinal : Event → Bool
  | .renderFinal _ => true
  | _ => false

/-- Outcome of the jar-download step of `createLavalink`: the `try`
block around `await downloadFile(...)`, whose `catch` does
`console.error(...)` and `process.exit(1)`. -/
inductive StepOutcome where
  | continued (finalSize : Nat)
  | exited (code : Nat)
deriving DecidableEq, Repr

/-- The caller's policy at the jar-download call site of
`createLavalink`: a rejection aborts the whole run with exit code 1. -/
def createLavalinkJarStep (resp : Response) (destPrev : Option (List Byte))
    (text : String) : StepOutcome :=
  match (downloadFile resp destPrev text).result with
  | .ok n => .continued n
  | .error _ => .exited 1

/-- Every event the write loop emits is a read, a count, or a write. -/
def isLoopEvent : Event → Bool
  | .readChunk _ => true
  | .addCount _ => true
  | .writeChunk _ => true
  | _ => false

/-- Response used to instantiate C1: two chunks partitioning five bytes. -/
def respC1 : Response :=
  { ok := true, statusText := "OK", contentLength := some 5,
    body := [[10, 20], [30, 40, 50]] }

/-- Response used to instantiate C4. -/
def respC4 : Response :=
  { ok := true, statusText := "OK", contentLength := none,
    body := [[1], [], [2, 3]] }

/-- Response used to instantiate C8. -/
def respC8 : Response :=
  { ok := true, statusText := "OK", contentLength := some 2,
    body := [[7, 8]] }

/-- Response used to instantiate C3. -/
def respC3 : Response :=
  { ok := false, statusText := "Not Found", contentLength := none,
    body := [] }

/-- Response used to instantiate C9: the reader rejects after two
chunks. -/
def respC9 : Response :=
  { ok := true, statusText := "OK", contentLength := some 10,
    body := [[1, 2], [3]], bodyError := some "read ECONNRESET" }

/-- Response used to instantiate C10. -/
def respC10 : Response :=
  { ok := true, statusText := "OK", contentLength := none,
    body := [[5]], bodyError := some "stream aborted" }

/-- Response used to instantiate C5: no `content-length` header. -/
def respC5 : Response :=
  { ok := true, statusText := "OK", contentLength := none,
    body := [[1, 2, 3]] }

/-- Response used to instantiate C2. -/
def respC2 : Response :=
  { ok := true, statusText := "OK", contentLength := some 3,
    body := [[1, 2, 3]] }

/-- Response used to instantiate C7 (Scenario A of the spec: 5 MB in a
declared total of 5242880 bytes). -/
def respC7 : Response :=
  { ok := true, statusText := "OK", contentLength := some 5242880,
    body := [[1, 2, 3]] }

/-! ## Basic lemmas about the write loop -/

theorem writeLoop_eq (chunks : List Chunk) (st : DownloadState) :
    writeLoop chunks st =
      { downloadedSize := st.downloadedSize + (chunks.map List.length).sum,
        fileContents := st.fileContents ++ chunks.flatten } := by
  induction chunks generalizing st with
  | nil => simp [writeLoop]
  | cons c rest ih =>
      simp [writeLoop, ih, List.flatten, Nat.add_assoc, List.append_assoc]

theorem writeLoop_init (chunks : List Chunk) :
    writeLoop chunks initState =
      { downloadedSize := (chunks.map List.length).sum,
        fileContents := chunks.flatten } := by
  simp [writeLoop_eq, initState]

theorem downloadedAfter_eq (chunks : List Chunk) (k : Nat) :
    downloadedAfter chunks k = ((chunks.take k).map List.length).sum := by
  simp [downloadedAfter, writeLoop_init]

theorem writtenAfter_eq (chunks : List Chunk) (k : Nat) :
    writtenAfter chunks k = (chunks.take k).flatten := by
  simp [writtenAfter, writeLoop_init]

theorem writeLoopEvents_loopOnly (chunks : List Chunk) :
    ∀ e ∈ writeLoopEvents chunks, isLoopEvent e = true := by
  induction chunks with
  | nil => simp [writeLoopEvents]
  | cons c rest ih =>
      intro e he
      simp only [writeLoopEvents, List.mem_cons] at he
      rcases he with rfl | rfl | rfl | he
      · rfl
      · rfl
      · rfl
      · exact ih e he

theorem not_mem_writeLoopEvents (chunks : List Chunk) (e : Event)
    (h : isLoopEvent e = false) : e ∉ writeLoopEvents chunks := by
  intro hmem
  have := writeLoopEvents_loopOnly chunks e hmem
  rw [h] at this
  exact Bool.false_ne_true this

/-! ## Claims -/

/-- C1: for every response body of `N` bytes delivered in any partition
into chunks, after `downloadFile` resolves successfully the destination
file contains exactly those `N` bytes in the original order — each chunk
is appended in receipt order, with no reordering, deduplication, or
loss. -/
theorem C1_bytes_complete (resp : Response) (destPrev : Option (List Byte))
    (text : String) (bytes : List Byte)
    (hok : resp.ok = true) (herr : resp.bodyError = none)
    (hpart : resp.body.flatten = bytes) :
    (downloadFile resp destPrev text).result = .ok bytes.length ∧
    (downloadFile resp destPrev text).file = some bytes := by
  subst hpart
  simp [downloadFile, hok, herr, writeLoop_init, List.length_flatten]

theorem C1_bytes_complete_witness :
    (downloadFile respC1 none "Downloading...").result = .ok 5 ∧
    (downloadFile respC1 none "Downloading...").file =
      some [10, 20, 30, 40, 50] :=
  C1_bytes_complete respC1 none "Downloading..." [10, 20, 30, 40, 50]
    rfl rfl rfl

/-- C4: within a single transfer the `downloadedSize` counter is
non-decreasing — each suspension point's value is at most the next
one's — and at successful completion the resolved counter equals the
destination file's final size. -/
theorem C4_counter_monotone_eq_size (resp : Response)
    (destPrev : Option (List Byte)) (text : String)
    (hok : resp.ok = true) (herr : resp.bodyError = none) :
    (∀ k, downloadedAfter resp.body k ≤ downloadedAfter resp.body (k + 1)) ∧
    (∃ n w, (downloadFile resp destPrev text).result = .ok n ∧
      (downloadFile resp destPrev text).file = some w ∧ n = w.length) := by
  constructor
  · intro k
    rw [downloadedAfter_eq, downloadedAfter_eq, List.take_succ]
    simp
  · refine ⟨(resp.body.map List.length).sum, resp.body.flatten, ?_, ?_, ?_⟩
    · simp [downloadFile, hok, herr, writeLoop_init]
    · simp [downloadFile, hok, herr, writeLoop_init]
    · simp [List.length_flatten]

theorem C4_counter_monotone_eq_size_witness :
    (∀ k, downloadedAfter respC4.body k ≤ downloadedAfter respC4.body (k + 1)) ∧
    (∃ n w, (downloadFile respC4 none "Downloading...").result = .ok n ∧
      (downloadFile respC4 none "Downloading...").file = some w ∧
      n = w.length) :=
  C4_counter_monotone_eq_size respC4 none "Downloading..." rfl rfl

/-- C6: the counter value a timer tick can display at the suspension
point after `k` chunks equals the number of bytes already handed to the
destination stream at that point, and never exceeds the number written
at that or any later point — displayed totals never exceed actual bytes
written. -/
theorem C6_display_le_written (resp : Response) (k j : Nat) :
    downloadedAfter resp.body k = (writtenAfter resp.body k).length ∧
    downloadedAfter resp.body k ≤ (writtenAfter resp.body (k + j)).length := by
  have hk : ∀ m, downloadedAfter resp.body m = (writtenAfter resp.body m).length := by
    intro m
    rw [downloadedAfter_eq, writtenAfter_eq, List.length_flatten]
  refine ⟨hk k, ?_⟩
  rw [hk k, writtenAfter_eq, writtenAfter_eq, List.length_flatten,
    List.length_flatten, List.take_add]
  simp

/-- C8: when a file already exists at the destination, the write target
is opened in truncating mode, so the final file contains only bytes from
the new response body — independent of the pre-existing contents. -/
theorem C8_truncates_existing (resp : Response) (prev : List Byte)
    (text : String) (hok : resp.ok = true) (herr : resp.bodyError = none) :
    (downloadFile resp (some prev) text).file = some resp.body.flatten := by
  simp [downloadFile, hok, herr, writeLoop_init]

theorem C8_truncates_existing_witness :
    (downloadFile respC8 (some [9, 9, 9, 9]) "Downloading...").file =
      some [7, 8] :=
  C8_truncates_existing respC8 [9, 9, 9, 9] "Downloading..." rfl rfl

theorem count_writeLoopEvents_eq_zero (chunks : List Chunk) (e : Event)
    (h : isLoopEvent e = false) : (writeLoopEvents chunks).count e = 0 :=
  List.count_eq_zero.mpr (not_mem_writeLoopEvents chunks e h)

/-- C3: a response whose status is not ok makes `downloadFile` reject
with an error carrying the status text, before any write target is
created: the destination is untouched, no write stream is opened and no
chunk is ever written. -/
theorem C3_not_ok_rejects (resp : Response) (destPrev : Option (List Byte))
    (text : String) (h : resp.ok = false) :
    (downloadFile resp destPrev text).result =
      .error ("Failed to download file: " ++ resp.statusText) ∧
    (downloadFile resp destPrev text).file = destPrev ∧
    Event.openWriteStream ∉ (downloadFile resp destPrev text).trace ∧
    (∀ c : Chunk, Event.writeChunk c ∉ (downloadFile resp destPrev text).trace) := by
  simp [downloadFile, h]

theorem C3_not_ok_rejects_witness :
    (downloadFile respC3 none "Downloading...").result =
      .error ("Failed to download file: " ++ respC3.statusText) ∧
    (downloadFile respC3 none "Downloading...").file = none ∧
    Event.openWriteStream ∉ (downloadFile respC3 none "Downloading...").trace ∧
    (∀ c : Chunk,
      Event.writeChunk c ∉ (downloadFile respC3 none "Downloading...").trace) :=
  C3_not_ok_rejects respC3 none "Downloading..." rfl

/-- C9: a mid-stream read error surfaces immediately as the call's
rejection with no retry (the trace holds exactly one fetch), the
partially written destination file is left in place, and the caller
(`createLavalink`) aborts the run with exit code 1. -/
theorem C9_midstream_error_final (resp : Response)
    (destPrev : Option (List Byte)) (text : String) (e : String)
    (hok : resp.ok = true) (herr : resp.bodyError = some e) :
    (downloadFile resp destPrev text).result = .error e ∧
    (downloadFile resp destPrev text).file = some resp.body.flatten ∧
    (downloadFile resp destPrev text).trace.count Event.fetched = 1 ∧
    createLavalinkJarStep resp destPrev text = .exited 1 := by
  have hres : (downloadFile resp destPrev text).result = .error e := by
    simp [downloadFile, hok, herr]
  refine ⟨hres, ?_, ?_, ?_⟩
  · simp [downloadFile, hok, herr, writeLoop_init]
  · have h0 := count_writeLoopEvents_eq_zero resp.body Event.fetched rfl
    simp [downloadFile, hok, herr, List.count_append, List.count_cons, h0]
  · simp [createLavalinkJarStep, hres]

theorem C9_midstream_error_final_witness :
    (downloadFile respC9 none "Downloading...").result =
      .error "read ECONNRESET" ∧
    (downloadFile respC9 none "Downloading...").file =
      some respC9.body.flatten ∧
    (downloadFile respC9 none "Downloading...").trace.count Event.fetched = 1 ∧
    createLavalinkJarStep respC9 none "Downloading..." = .exited 1 :=
  C9_midstream_error_final respC9 none "Downloading..." "read ECONNRESET"
    rfl rfl

/-- C10: when the read loop rejects mid-stream, the rejection propagates
without ever reaching `clearInterval` — the trace holds no `clearTimer`
and the spinner timer stays armed — while on every successful run the
timer is cancelled. -/
theorem C10_timer_never_cleared_on_error (resp : Response)
    (destPrev : Option (List Byte)) (text : String) (e : String)
    (hok : resp.ok = true) (herr : resp.bodyError = some e) :
    (downloadFile resp destPrev text).result = .error e ∧
    Event.clearTimer ∉ (downloadFile resp destPrev text).trace ∧
    timerStillActive (downloadFile resp destPrev text) = true ∧
    (∀ (resp2 : Response) (destPrev2 : Option (List Byte)) (text2 : String),
      resp2.ok = true → resp2.bodyError = none →
      timerStillActive (downloadFile resp2 destPrev2 text2) = false) := by
  refine ⟨by simp [downloadFile, hok, herr], ?_, ?_, ?_⟩
  · simp [downloadFile, hok, herr]
    exact fun hmem => absurd (writeLoopEvents_loopOnly _ _ hmem) (by simp [isLoopEvent])
  · have h1 := count_writeLoopEvents_eq_zero resp.body Event.clearTimer rfl
    have h2 := count_writeLoopEvents_eq_zero resp.body Event.startInterval rfl
    simp [timerStillActive, downloadFile, hok, herr, List.count_append,
      List.count_cons, h1, h2]
  · intro resp2 destPrev2 text2 hok2 herr2
    have h1 := count_writeLoopEvents_eq_zero resp2.body Event.clearTimer rfl
    have h2 := count_writeLoopEvents_eq_zero resp2.body Event.startInterval rfl
    simp [timerStillActive, downloadFile, hok2, herr2, List.count_append,
      List.count_cons, h1, h2]

theorem C10_timer_never_cleared_on_error_witness :
    (downloadFile respC10 none "Downloading...").result =
      .error "stream aborted" ∧
    Event.clearTimer ∉ (downloadFile respC10 none "Downloading...").trace ∧
    timerStillActive (downloadFile respC10 none "Downloading...") = true ∧
    (∀ (resp2 : Response) (destPrev2 : Option (List Byte)) (text2 : String),
      resp2.ok = true → resp2.bodyError = none →
      timerStillActive (downloadFile resp2 destPrev2 text2) = false) :=
  C10_timer_never_cleared_on_error respC10 none "Downloading..."
    "stream aborted" rfl rfl

theorem spinnerLine_unknown (f text : String) (d : Nat) :
    spinnerLine f text d none =
      (f ++ " " ++ text ++ " (" ++ mbFixed2 d ++ " MB / ") ++ "unknown MB)" := by
  show (f ++ " " ++ text ++ " (" ++ mbFixed2 d ++ " MB / ") ++ "unknown" ++ " MB)" = _
  rw [String.append_assoc]
  rfl

theorem finalLine_unknown (text : String) (d : Nat) :
    finalLine text d none =
      (successMarker ++ " " ++ text ++ " (" ++ mbFixed2 d ++ " MB / ") ++
        "unknown MB)" := by
  show (successMarker ++ " " ++ text ++ " (" ++ mbFixed2 d ++ " MB / ") ++
    "unknown" ++ " MB)" = _
  rw [String.append_assoc]
  rfl

theorem writeLoopEvents_filter_renderFinal (chunks : List Chunk) :
    (writeLoopEvents chunks).filter isRenderFinal = [] := by
  induction chunks with
  | nil => rfl
  | cons c rest ih =>
      simp [writeLoopEvents, List.filter_cons, isRenderFinal, ih]

/-- On a successful run the final-render actions of the trace are
exactly one line: the final line with the total downloaded size. -/
theorem filter_renderFinal_success (resp : Response)
    (destPrev : Option (List Byte)) (text : String)
    (hok : resp.ok = true) (herr : resp.bodyError = none) :
    (downloadFile resp destPrev text).trace.filter isRenderFinal =
      [Event.renderFinal (finalLine text
        (writeLoop resp.body initState).downloadedSize resp.contentLength)] := by
  rw [downloadFile]
  simp [hok, herr, List.filter_append, writeLoopEvents_filter_renderFinal,
    List.filter_cons, isRenderFinal]

/-- C5: when the response carries no `content-length` header, every
rendered progress line — any timer tick at any suspension point, and
any final line appearing in the run's trace — ends with `unknown MB)`,
i.e. shows the string "unknown" as the denominator; the rendering
functions are total, so no division on the absent total can fail. -/
theorem C5_unknown_denominator (resp : Response)
    (destPrev : Option (List Byte)) (text : String)
    (h : resp.contentLength = none) :
    (∀ i k, ∃ p, tickLine i text resp k = p ++ "unknown MB)") ∧
    (∀ l, Event.renderFinal l ∈ (downloadFile resp destPrev text).trace →
      ∃ p, l = p ++ "unknown MB)") := by
  constructor
  · intro i k
    refine ⟨loadingFrames.getD (i % loadingFrames.length) "" ++ " " ++ text ++
      " (" ++ mbFixed2 (downloadedAfter resp.body k) ++ " MB / ", ?_⟩
    show spinnerLine _ text (downloadedAfter resp.body k) resp.contentLength = _
    rw [h]
    exact spinnerLine_unknown _ text _
  · intro l hl
    cases hok : resp.ok with
    | false =>
        rw [downloadFile] at hl
        simp [hok] at hl
    | true =>
        cases herr : resp.bodyError with
        | some e =>
            rw [downloadFile] at hl
            simp [hok, herr] at hl
            exact absurd (writeLoopEvents_loopOnly _ _ hl) (by simp [isLoopEvent])
        | none =>
            have hmem : Event.renderFinal l ∈
                (downloadFile resp destPrev text).trace.filter isRenderFinal :=
              List.mem_filter.mpr ⟨hl, rfl⟩
            rw [filter_renderFinal_success resp destPrev text hok herr,
              List.mem_singleton] at hmem
            have hl2 : l = finalLine text
                (writeLoop resp.body initState).downloadedSize
                resp.contentLength := by
              injection hmem
            rw [hl2, h]
            exact ⟨_, finalLine_unknown text _⟩

theorem C5_unknown_denominator_witness :
    (∀ i k, ∃ p, tickLine i "Downloading..." respC5 k = p ++ "unknown MB)") ∧
    (∀ l, Event.renderFinal l ∈ (downloadFile respC5 none "Downloading...").trace →
      ∃ p, l = p ++ "unknown MB)") :=
  C5_unknown_denominator respC5 none "Downloading..." rfl

/-- C2 (refutes the claim as stated): every successful run settles —
`resolved` is in the trace — yet the trace never holds
`awaitFlushCompleted`: the source calls `fileStream.end()` and resolves
right after `clearInterval`/`logUpdate` without subscribing to the write
stream's `finish`/`close` event, so nothing orders resolution after the
flush of buffered bytes to storage. -/
theorem C2_resolves_without_flush_wait (resp : Response)
    (destPrev : Option (List Byte)) (text : String)
    (hok : resp.ok = true) (herr : resp.bodyError = none) :
    Event.resolved ∈ (downloadFile resp destPrev text).trace ∧
    Event.awaitFlushCompleted ∉ (downloadFile resp destPrev text).trace := by
  constructor
  · rw [downloadFile]
    simp [hok, herr]
  · rw [downloadFile]
    simp [hok, herr]
    exact fun hmem =>
      absurd (writeLoopEvents_loopOnly _ _ hmem) (by simp [isLoopEvent])

theorem C2_resolves_without_flush_wait_witness :
    Event.resolved ∈ (downloadFile respC2 none "Downloading...").trace ∧
    Event.awaitFlushCompleted ∉ (downloadFile respC2 none "Downloading...").trace :=
  C2_resolves_without_flush_wait respC2 none "Downloading..." rfl rfl

theorem digitChar_lt (m : Nat) : (Nat.digitChar m).toNat < 10240 := by
  rcases Nat.lt_or_ge m 16 with h | h
  · interval_cases m <;> decide
  · have hstar : Nat.digitChar m = '*' := by
      unfold Nat.digitChar
      repeat rw [if_neg (by omega)]
    rw [hstar]
    decide

theorem toDigitsCore_lt (fuel n : Nat) (ds : List Char)
    (hds : ∀ c ∈ ds, c.toNat < 10240) :
    ∀ c ∈ Nat.toDigitsCore 10 fuel n ds, c.toNat < 10240 := by
  induction fuel generalizing n ds with
  | zero => simpa [Nat.toDigitsCore] using hds
  | succ fuel ih =>
      rw [Nat.toDigitsCore]
      split
      · intro c hc
        rcases List.mem_cons.mp hc with rfl | hc
        · exact digitChar_lt _
        · exact hds c hc
      · refine ih _ _ ?_
        intro c hc
        rcases List.mem_cons.mp hc with rfl | hc
        · exact digitChar_lt _
        · exact hds c hc

theorem natToString_chars_lt (n : Nat) :
    ∀ c ∈ (toString n).data, c.toNat < 10240 := by
  intro c hc
  exact toDigitsCore_lt _ _ [] (by simp) c hc

theorem chars_lt_append {a b : String}
    (ha : ∀ c ∈ a.data, c.toNat < 10240) (hb : ∀ c ∈ b.data, c.toNat < 10240) :
    ∀ c ∈ (a ++ b).data, c.toNat < 10240 := by
  intro c hc
  rw [String.data_append] at hc
  rcases List.mem_append.mp hc with h | h
  · exact ha c h
  · exact hb c h

/-- The megabyte rendering uses only digits and a dot — every character
stays far below the braille block the spinner frames live in. -/
theorem fixedShape_chars_lt (a b : Nat) :
    ∀ c ∈ (toString a ++ "." ++
      (if b < 10 then "0" ++ toString b else toString b)).data,
      c.toNat < 10240 := by
  refine chars_lt_append (chars_lt_append (natToString_chars_lt _) ?_) ?_
  · decide
  · split
    · exact chars_lt_append (by decide) (natToString_chars_lt _)
    · exact natToString_chars_lt _

theorem mbFixed2_chars_lt (n : Nat) :
    ∀ c ∈ (mbFixed2 n).data, c.toNat < 10240 :=
  fixedShape_chars_lt _ _

theorem totaledSizeMB_chars_lt (cl : Option Nat) :
    ∀ c ∈ (totaledSizeMB cl).data, c.toNat < 10240 := by
  cases cl with
  | some n => exact mbFixed2_chars_lt n
  | none => decide

theorem finalLine_chars_lt (text : String) (n : Nat) (cl : Option Nat)
    (htext : ∀ c ∈ text.data, c.toNat < 10240) :
    ∀ c ∈ (finalLine text n cl).data, c.toNat < 10240 := by
  refine chars_lt_append (chars_lt_append (chars_lt_append (chars_lt_append
    (chars_lt_append (chars_lt_append (by decide) htext) (by decide))
    (mbFixed2_chars_lt n)) (by decide)) (totaledSizeMB_chars_lt cl)) (by decide)

/-- Every spinner frame is a braille glyph, at or above code point
U+2800 = 10240. -/
theorem loadingFrames_chars_ge :
    ∀ f ∈ loadingFrames, ∀ c ∈ f.data, 10240 ≤ c.toNat := by
  decide

/-- C7: on every successful transfer the timer is cancelled exactly
once, and exactly one final line is emitted: it shows the resolved byte
count formatted as megabytes together with the total (or "unknown"),
opens with the distinct success marker, and carries no spinner glyph
(provided the caller's label has none). -/
theorem C7_final_line_success (resp : Response) (destPrev : Option (List Byte))
    (text : String) (hok : resp.ok = true) (herr : resp.bodyError = none)
    (htext : ∀ c ∈ text.data, c.toNat < 10240) :
    (downloadFile resp destPrev text).trace.count Event.clearTimer = 1 ∧
    (∃ n, (downloadFile resp destPrev text).result = .ok n ∧
      (downloadFile resp destPrev text).trace.filter isRenderFinal =
        [Event.renderFinal (finalLine text n resp.contentLength)] ∧
      (∃ rest, finalLine text n resp.contentLength = successMarker ++ rest) ∧
      (∀ f ∈ loadingFrames, ∀ c ∈ f.data,
        c ∉ (finalLine text n resp.contentLength).data)) := by
  constructor
  · have h0 := count_writeLoopEvents_eq_zero resp.body Event.clearTimer rfl
    rw [downloadFile]
    simp [hok, herr, List.count_append, List.count_cons, h0]
  · refine ⟨(writeLoop resp.body initState).downloadedSize, ?_, ?_, ?_, ?_⟩
    · rw [downloadFile]
      simp [hok, herr]
    · exact filter_renderFinal_success resp destPrev text hok herr
    · refine ⟨" " ++ (text ++ (" (" ++
        (mbFixed2 (writeLoop resp.body initState).downloadedSize ++
          (" MB / " ++ (totaledSizeMB resp.contentLength ++ " MB)"))))), ?_⟩
      simp [finalLine, String.append_assoc]
    · intro f hf c hcf hcl
      have h1 := loadingFrames_chars_ge f hf c hcf
      have h2 := finalLine_chars_lt text _ resp.contentLength htext c hcl
      omega

theorem C7_final_line_success_witness :
    (downloadFile respC7 none "Downloading test...").trace.count
      Event.clearTimer = 1 ∧
    (∃ n, (downloadFile respC7 none "Downloading test...").result = .ok n ∧
      (downloadFile respC7 none "Downloading test...").trace.filter
        isRenderFinal =
        [Event.renderFinal (finalLine "Downloading test..." n
          respC7.contentLength)] ∧
      (∃ rest, finalLine "Downloading test..." n respC7.contentLength =
        successMarker ++ rest) ∧
      (∀ f ∈ loadingFrames, ∀ c ∈ f.data,
        c ∉ (finalLine "Downloading test..." n respC7.contentLength).data)) :=
  C7_final_line_success respC7 none "Downloading test..." rfl rfl (by decide)
